import Mathlib

/-!
Shallow embedding of the call-handling webhook service in `src/app.py`
(Flask app driving a Twilio voice dialogue with an LLM oracle), together
with proofs about its conversation-state machine, emergency classifier,
booking extraction and side-effect dispatch.

Modelling conventions:
- Python dictionaries (the globals `conversations` and `call_data`) are
  association lists with insertion-order semantics: `dinsert` updates an
  existing key in place and appends a fresh key at the end, matching
  Python dict assignment; `dlookup` is dict indexing / `in`.
- Python strings are Lean `String`; `str.lower` maps `Char.toLower`
  over the characters; the Python substring test `a in b` is list-infix
  on the character lists.
- The two language-model oracle calls are black boxes: their replies are
  explicit parameters of the handler (`ai_response` for the dialogue
  turn, `extract_oracle` for the extraction call). For the extraction
  call, `extract_oracle : Option BookingInfo` is the outcome of
  `json.loads` on the reply: `none` means the parse raised (the
  `except` branch), `some obj` means it returned the JSON object `obj`
  (the model restricts attention to string-valued JSON objects, the
  shape the extraction prompt requests).
- Wall-clock timestamps (`datetime.now`) are opaque `Nat` parameters.
- A handler that raises a `KeyError` is modelled by returning the state
  as mutated up to the raising line together with a `keyError` result.
-/

/-- Association-list lookup, modelling Python dict indexing and the
`in` membership test (`isSome`). -/
def dlookup {α : Type} : List (String × α) → String → Option α
  | [], _ => none
  | (k, v) :: t, k₀ => if k = k₀ then some v else dlookup t k₀

/-- Association-list insert, modelling Python dict assignment: replaces
the value of an existing key in place, appends a fresh key at the end
(Python 3.7 insertion order). -/
def dinsert {α : Type} : List (String × α) → String → α → List (String × α)
  | [], k₀, v₀ => [(k₀, v₀)]
  | (k, v) :: t, k₀, v₀ => if k = k₀ then (k₀, v₀) :: t else (k, v) :: dinsert t k₀ v₀

theorem dlookup_dinsert {α : Type} (m : List (String × α)) (k : String) (v : α) :
    dlookup (dinsert m k v) k = some v := by
  induction m with
  | nil => simp [dinsert, dlookup]
  | cons h t ih =>
    obtain ⟨k₁, v₁⟩ := h
    by_cases hk : k₁ = k
    · simp [dinsert, hk, dlookup]
    · simp [dinsert, hk, dlookup, ih]

theorem dlookup_dinsert_ne {α : Type} (m : List (String × α)) (k k₀ : String) (v : α)
    (h : k ≠ k₀) : dlookup (dinsert m k v) k₀ = dlookup m k₀ := by
  induction m with
  | nil => simp [dinsert, dlookup, h]
  | cons hd t ih =>
    obtain ⟨k₁, v₁⟩ := hd
    by_cases hk : k₁ = k
    · subst hk
      simp [dinsert, dlookup, h]
    · simp [dinsert, hk, dlookup, ih]

/-- Python substring test `needle in hay` on character lists. -/
def pyContains (needle : List Char) : List Char → Bool
  | [] => needle.isEmpty
  | c :: t => needle.isPrefixOf (c :: t) || pyContains needle t

theorem pyContains_iff (needle hay : List Char) :
    pyContains needle hay = true ↔ needle <:+: hay := by
  induction hay with
  | nil =>
    simp only [pyContains, List.isEmpty_iff, List.infix_nil]
  | cons c t ih =>
    simp [pyContains, Bool.or_eq_true, List.isPrefixOf_iff_prefix, ih,
      List.infix_cons_iff]

/-- Python `str.lower` on a character list. -/
def pyLower (s : List Char) : List Char := s.map Char.toLower

/-- EMERGENCY_KEYWORDS from `src/app.py` line 29. -/
def EMERGENCY_KEYWORDS : List (List Char) :=
  ["burst".toList, "flooding".toList, "leak".toList, "emergency".toList,
   "urgent".toList, "water everywhere".toList]

/-- detect_emergency (`src/app.py` lines 31-34): lowercase the text, then
test whether any keyword occurs as a substring. -/
def detect_emergency (text : List Char) : Bool :=
  let text_lower := pyLower text
  EMERGENCY_KEYWORDS.any fun keyword => pyContains keyword text_lower

/-- BookingInfo models a parsed JSON object with string values, the
shape the extraction prompt requests. -/
abbrev BookingInfo : Type := List (String × String)

/-- Python `dict.get(key, default)` where the default is itself possibly
`None` (an `Option`). -/
def pyGet (m : BookingInfo) (k : String) (d : Option String) : Option String :=
  match dlookup m k with
  | some v => some v
  | none => d

/-- Python `dict.get(key, default)` with a string default. -/
def pyGetD (m : BookingInfo) (k : String) (d : String) : String :=
  (dlookup m k).getD d

/-- Fallback record of `extract_booking_info` (`src/app.py` lines 94-101). -/
def default_booking : BookingInfo :=
  [("name", "Not provided"), ("phone", "Not provided"), ("address", "Not provided"),
   ("issue", "Not provided"), ("appointment_time", "Not provided"),
   ("is_emergency", "no")]

/-- extract_booking_info (`src/app.py` lines 67-101): the oracle reply is
fed to `json.loads`; on a parse exception the fallback record is
returned, otherwise the parsed value is returned unchanged. The
parameter is the `json.loads` outcome (`none` = the parse raised). -/
def extract_booking_info (oracle : Option BookingInfo) : BookingInfo :=
  match oracle with
  | some info => info
  | none => default_booking

/-- Keys of the structured record the extraction prompt requests
(`src/app.py` line 81). -/
def expected_keys : List String :=
  ["name", "phone", "address", "issue", "appointment_time", "is_emergency"]

/-- Expected-structure test for an oracle reply: it parsed, and the
parsed object carries all six requested keys. -/
def is_expected_structure (oracle : Option BookingInfo) : Bool :=
  match oracle with
  | none => false
  | some info => expected_keys.all fun k => (dlookup info k).isSome

/-- Role tag of a dialogue turn, as in the message dicts of
`conversations` (`src/app.py` lines 152 and 162). -/
inductive Role : Type
  | user
  | assistant
deriving DecidableEq, Repr

/-- One message of `conversations[call_sid]`. -/
structure Turn : Type where
  role : Role
  content : String
deriving DecidableEq, Repr

/-- Value stored at `call_data[call_sid]` (`src/app.py` lines 115-119 and
the keys later assigned at 158, 174, 213, 214). Keys that the code adds
only later (`is_emergency`, `status`, `ended_at`, `booking_info`) are
options / a Bool whose initial value matches the falsy reading of a
missing key. -/
structure CallRec : Type where
  fromNumber : Option String
  started_at : Nat
  conversation : List String
  is_emergency : Bool
  status : Option String
  ended_at : Option Nat
  booking_info : Option BookingInfo
deriving DecidableEq, Repr

/-- Process-wide mutable state: the two module-level dicts
`conversations` and `call_data` (`src/app.py` lines 25-26). -/
structure State : Type where
  conversations : List (String × List Turn)
  call_data : List (String × CallRec)
deriving DecidableEq, Repr

/-- Empty initial state of the process. -/
def initState : State := { conversations := [], call_data := [] }

/-- voice handler (`src/app.py` lines 103-141): lookup-or-create for the
call identifier; the spoken response is a fixed greeting-and-gather, so
it carries no information and is not modelled beyond its constancy. -/
def voice (st : State) (call_sid : String) (from_number : Option String) (now : Nat) :
    State :=
  if (dlookup st.conversations call_sid).isSome then st
  else
    { conversations := dinsert st.conversations call_sid [],
      call_data := dinsert st.call_data call_sid
        { fromNumber := from_number, started_at := now, conversation := [],
          is_emergency := false, status := none, ended_at := none,
          booking_info := none } }

/-- call_status handler (`src/app.py` lines 206-216): records the status
string and an end timestamp when the id is known, silently ignores an
unknown id; always answers `ok` (the constant response is not
modelled). -/
def call_status (st : State) (call_sid : String) (status_str : String) (now : Nat) :
    State :=
  match dlookup st.call_data call_sid with
  | some cd =>
      let cd1 : CallRec := { cd with status := some status_str, ended_at := some now }
      { st with call_data := dinsert st.call_data call_sid cd1 }
  | none => st

/-- Python truthiness-and-sentinel test on the phone value of
send_confirmation_sms (`src/app.py` line 225): `customer_phone and
customer_phone != "Not provided"`; `None` and the empty string are
falsy. -/
def phone_usable : Option String → Bool
  | none => false
  | some p => ¬ (p = "") ∧ ¬ (p = "Not provided")

/-- send_confirmation_sms (`src/app.py` lines 218-235): computes the SMS
destination and returns it when the message dispatch is attempted
(`some dest`), or `none` when the guard at line 225 skips the send.
Transport errors inside the `try` are logged and ignored, so the
dispatch attempt itself is the observable effect. -/
def send_confirmation_sms (st : State) (call_sid : String) : Option String :=
  let data := dlookup st.call_data call_sid
  let booking_info := (data.bind fun d => d.booking_info).getD []
  let from_default : Option String :=
    match data with
    | some d => d.fromNumber
    | none => none
  let customer_phone := pyGet booking_info "phone" from_default
  if phone_usable customer_phone then customer_phone else none

/-- Dashboard projection built by save_to_dashboard (`src/app.py` lines
248-257). Timestamps being opaque naturals, the duration is their
truncated difference. -/
structure DashboardRecord : Type where
  clientName : String
  phone : Option String
  issue : String
  urgency : String
  appointmentTime : String
  status : String
  duration : Nat
  transcript : String
deriving DecidableEq, Repr

/-- save_to_dashboard (`src/app.py` lines 237-265): formats the dashboard
record and publishes it (the publication is the returned record; it is
unconditional). -/
def save_to_dashboard (st : State) (call_sid : String) (now : Nat) : DashboardRecord :=
  let data := dlookup st.call_data call_sid
  let booking_info := (data.bind fun d => d.booking_info).getD []
  let started := (data.map fun d => d.started_at).getD now
  let ended := (data.bind fun d => d.ended_at).getD now
  let from_default : Option String :=
    match data with
    | some d => d.fromNumber
    | none => some "Unknown"
  let data_emergency := (data.map fun d => d.is_emergency).getD false
  { clientName := pyGetD booking_info "name" "Unknown",
    phone := pyGet booking_info "phone" from_default,
    issue := pyGetD booking_info "issue" "Not specified",
    urgency :=
      if data_emergency || (dlookup booking_info "is_emergency" == some "yes")
      then "emergency" else "normal",
    appointmentTime := pyGetD booking_info "appointment_time" "Not scheduled",
    status := if data_emergency then "urgent" else "booked",
    duration := ended - started,
    transcript := String.intercalate "\n" ((data.map fun d => d.conversation).getD []) }

/-- Outcome of one process_speech invocation: an uncaught `KeyError`, a
continue-gathering TwiML response speaking the AI reply, or the
termination response together with its side effects (the attempted SMS
destination and the published dashboard record). -/
inductive PSResult : Type
  | keyError
  | gatherResp (text : String)
  | hangupResp (sms : Option String) (dash : DashboardRecord)
deriving DecidableEq, Repr

/-- process_speech handler (`src/app.py` lines 143-204), faithful to the
statement order: append the caller turn to both stores (raising
`KeyError` where Python would), set the emergency flag, append the
system turn (the oracle reply `ai_response`), then either terminate
(length of `conversations[call_sid]` at least 6: extract the booking,
store it, attempt the SMS, publish the dashboard record, hang up) or
answer with a further gather. -/
def process_speech (st : State) (call_sid : String) (speech_result : String)
    (ai_response : String) (extract_oracle : Option BookingInfo) (now : Nat) :
    State × PSResult :=
  match dlookup st.conversations call_sid with
  | none => (st, PSResult.keyError)
  | some conv =>
    let conv1 := conv ++ [{ role := Role.user, content := speech_result }]
    let st1 : State := { st with conversations := dinsert st.conversations call_sid conv1 }
    match dlookup st1.call_data call_sid with
    | none => (st1, PSResult.keyError)
    | some cd =>
      let cd1 := { cd with conversation := cd.conversation ++ ["Customer: " ++ speech_result] }
      let is_em := detect_emergency speech_result.toList
      let cd2 := if is_em then { cd1 with is_emergency := true } else cd1
      let conv2 := conv1 ++ [{ role := Role.assistant, content := ai_response }]
      let cd3 := { cd2 with conversation := cd2.conversation ++ ["Bot: " ++ ai_response] }
      let st2 : State := { conversations := dinsert st1.conversations call_sid conv2,
                           call_data := dinsert st1.call_data call_sid cd3 }
      let conversation_length := conv2.length
      if conversation_length ≥ 6 then
        let booking_info := extract_booking_info extract_oracle
        let cd4 := { cd3 with booking_info := some booking_info }
        let st3 : State := { st2 with call_data := dinsert st2.call_data call_sid cd4 }
        let sms := send_confirmation_sms st3 call_sid
        let dash := save_to_dashboard st3 call_sid now
        (st3, PSResult.hangupResp sms dash)
      else
        (st2, PSResult.gatherResp ai_response)

/-- Entry returned by the read endpoint get_calls (`src/app.py` lines
267-284) for one stored call. -/
structure ApiCallEntry : Type where
  id : String
  clientName : String
  phone : Option String
  issue : String
  urgency : String
  appointmentTime : String
  status : String
  timestamp : Nat
  transcript : String
deriving DecidableEq, Repr

/-- get_calls (`src/app.py` lines 267-284): pure projection of every
stored call into dashboard form; touches no state. -/
def get_calls (st : State) : List ApiCallEntry :=
  st.call_data.map fun p =>
    let data := p.2
    let booking_info := data.booking_info.getD []
    { id := p.1,
      clientName := pyGetD booking_info "name" "Unknown",
      phone := pyGet booking_info "phone" data.fromNumber,
      issue := pyGetD booking_info "issue" "Not specified",
      urgency := if data.is_emergency then "emergency" else "normal",
      appointmentTime := pyGetD booking_info "appointment_time" "Not scheduled",
      status := data.status.getD "in-progress",
      timestamp := data.started_at,
      transcript := String.intercalate "\n" data.conversation }

/-- One inbound event against the service: the four handlers, with all
oracle replies and timestamps explicit. -/
inductive Op : Type
  | opVoice (sid : String) (fromN : Option String) (now : Nat)
  | opSpeech (sid : String) (speech : String) (ai : String)
      (ext : Option BookingInfo) (now : Nat)
  | opStatus (sid : String) (s : String) (now : Nat)
  | opRead
  | opHealth
deriving DecidableEq, Repr

/-- State transition of one inbound event. The read and health handlers
perform no assignment to the module-level dicts. -/
def step (st : State) : Op → State
  | Op.opVoice sid f n => voice st sid f n
  | Op.opSpeech sid sp ai ex n => (process_speech st sid sp ai ex n).1
  | Op.opStatus sid s n => call_status st sid s n
  | Op.opRead => st
  | Op.opHealth => st

/-- Sequential execution of a list of inbound events. -/
def runOps (st : State) (ops : List Op) : State := ops.foldl step st

/-- Observable side effect fired during one event: an attempted SMS
dispatch (with destination) or a dashboard record publication. -/
inductive Eff : Type
  | smsSent (dest : String)
  | dashSaved (d : DashboardRecord)
deriving DecidableEq, Repr

/-- Side effects of one process_speech outcome: the termination branch
attempts the SMS (when its guard passes) and always publishes exactly
one dashboard record; the other outcomes fire nothing. -/
def psEffects : PSResult → List Eff
  | PSResult.hangupResp sms dash =>
      (match sms with
        | some d => [Eff.smsSent d]
        | none => []) ++ [Eff.dashSaved dash]
  | _ => []

/-- One event together with the effects it fires. -/
def stepEff (st : State) : Op → State × List Eff
  | Op.opSpeech sid sp ai ex n =>
      let r := process_speech st sid sp ai ex n
      (r.1, psEffects r.2)
  | op => (step st op, [])

/-- Sequential execution collecting all fired effects. -/
def runEffs (st : State) : List Op → State × List Eff
  | [] => (st, [])
  | op :: rest =>
      let r := stepEff st op
      let r2 := runEffs r.1 rest
      (r2.1, r.2 ++ r2.2)

/-- Number of attempted SMS dispatches in an effect trace. -/
def countSms (es : List Eff) : Nat :=
  es.countP fun e =>
    match e with
    | Eff.smsSent _ => true
    | _ => false

/-- Number of dashboard publications in an effect trace. -/
def countDash (es : List Eff) : Nat :=
  es.countP fun e =>
    match e with
    | Eff.dashSaved _ => true
    | _ => false

/-- Store invariant: the two dicts hold exactly the same keys in the
same insertion order. It holds of the empty initial state and is
preserved by every handler. -/
def KeysEq (st : State) : Prop :=
  st.conversations.map Prod.fst = st.call_data.map Prod.fst

theorem dlookup_isSome_iff {α : Type} (m : List (String × α)) (k : String) :
    (dlookup m k).isSome ↔ k ∈ m.map Prod.fst := by
  induction m with
  | nil => simp [dlookup]
  | cons h t ih =>
    obtain ⟨k₁, v₁⟩ := h
    by_cases hk : k₁ = k
    · simp [dlookup, hk]
    · simp [dlookup, hk, ih, Ne.symm hk]

theorem map_fst_dinsert_mem {α : Type} (m : List (String × α)) (k : String) (v : α)
    (h : k ∈ m.map Prod.fst) :
    (dinsert m k v).map Prod.fst = m.map Prod.fst := by
  induction m with
  | nil => simp at h
  | cons hd t ih =>
    obtain ⟨k₁, v₁⟩ := hd
    by_cases hk : k₁ = k
    · simp [dinsert, hk]
    · simp only [List.map_cons, List.mem_cons] at h
      rcases h with h | h
      · exact absurd h.symm hk
      · simp [dinsert, hk, ih h]

theorem map_fst_dinsert_notmem {α : Type} (m : List (String × α)) (k : String) (v : α)
    (h : k ∉ m.map Prod.fst) :
    (dinsert m k v).map Prod.fst = m.map Prod.fst ++ [k] := by
  induction m with
  | nil => simp [dinsert]
  | cons hd t ih =>
    obtain ⟨k₁, v₁⟩ := hd
    simp only [List.map_cons, List.mem_cons] at h
    push_neg at h
    have hk : k₁ ≠ k := fun hh => h.1 hh.symm
    simp [dinsert, hk, ih h.2]

theorem dinsert_mem_preserved {α : Type} (m : List (String × α)) (k k₀ : String) (v : α)
    (h : k₀ ∈ m.map Prod.fst) : k₀ ∈ (dinsert m k v).map Prod.fst := by
  by_cases hk : k ∈ m.map Prod.fst
  · rw [map_fst_dinsert_mem m k v hk]; exact h
  · rw [map_fst_dinsert_notmem m k v hk]; exact List.mem_append_left _ h

theorem mem_map_fst_dinsert_self {α : Type} (m : List (String × α)) (k : String) (v : α) :
    k ∈ (dinsert m k v).map Prod.fst := by
  rw [← dlookup_isSome_iff, dlookup_dinsert]; rfl

theorem process_speech_keys (st : State) (sid sp ai : String) (ex : Option BookingInfo)
    (n : Nat) :
    (process_speech st sid sp ai ex n).1.conversations.map Prod.fst =
      st.conversations.map Prod.fst ∧
    (process_speech st sid sp ai ex n).1.call_data.map Prod.fst =
      st.call_data.map Prod.fst := by
  cases hcv : dlookup st.conversations sid with
  | none => simp [process_speech, hcv]
  | some conv =>
    have hmemc : sid ∈ st.conversations.map Prod.fst := by
      rw [← dlookup_isSome_iff, hcv]; rfl
    cases hcd : dlookup st.call_data sid with
    | none =>
      simp [process_speech, hcv, hcd, map_fst_dinsert_mem _ _ _ hmemc]
    | some cd =>
      have hmemd : sid ∈ st.call_data.map Prod.fst := by
        rw [← dlookup_isSome_iff, hcd]; rfl
      by_cases hl : conv.length + 2 ≥ 6
      · simp only [process_speech, hcv, hcd]
        simp only [List.length_append, List.length_cons, List.length_nil]
        rw [if_pos (by omega)]
        refine ⟨?_, ?_⟩
        · rw [map_fst_dinsert_mem _ _ _ (mem_map_fst_dinsert_self _ _ _),
            map_fst_dinsert_mem _ _ _ hmemc]
        · rw [map_fst_dinsert_mem _ _ _ (mem_map_fst_dinsert_self _ _ _),
            map_fst_dinsert_mem _ _ _ hmemd]
      · simp only [process_speech, hcv, hcd]
        simp only [List.length_append, List.length_cons, List.length_nil]
        rw [if_neg (by omega)]
        refine ⟨?_, ?_⟩
        · rw [map_fst_dinsert_mem _ _ _ (mem_map_fst_dinsert_self _ _ _),
            map_fst_dinsert_mem _ _ _ hmemc]
        · rw [map_fst_dinsert_mem _ _ _ hmemd]

theorem call_status_keys (st : State) (sid s : String) (n : Nat) :
    (call_status st sid s n).conversations = st.conversations ∧
    (call_status st sid s n).call_data.map Prod.fst = st.call_data.map Prod.fst := by
  cases hcd : dlookup st.call_data sid with
  | none => simp [call_status, hcd]
  | some cd =>
    have hmemd : sid ∈ st.call_data.map Prod.fst := by
      rw [← dlookup_isSome_iff, hcd]; rfl
    simp [call_status, hcd, map_fst_dinsert_mem _ _ _ hmemd]

theorem keysEq_step (st : State) (op : Op) (hk : KeysEq st) : KeysEq (step st op) := by
  cases op with
  | opVoice sid f n =>
    show KeysEq (voice st sid f n)
    unfold KeysEq at hk ⊢
    unfold voice
    by_cases hp : (dlookup st.conversations sid).isSome
    · simp [hp, hk]
    · rw [if_neg (by simpa using hp)]
      have hnc : sid ∉ st.conversations.map Prod.fst := by
        rw [← dlookup_isSome_iff]; simpa using hp
      have hnd : sid ∉ st.call_data.map Prod.fst := by
        rw [← hk]; exact hnc
      show (dinsert st.conversations sid []).map Prod.fst = _
      rw [map_fst_dinsert_notmem _ _ _ hnc, map_fst_dinsert_notmem _ _ _ hnd, hk]
  | opSpeech sid sp ai ex n =>
    show KeysEq (process_speech st sid sp ai ex n).1
    unfold KeysEq at hk ⊢
    have h := process_speech_keys st sid sp ai ex n
    rw [h.1, h.2, hk]
  | opStatus sid s n =>
    show KeysEq (call_status st sid s n)
    unfold KeysEq at hk ⊢
    have h := call_status_keys st sid s n
    rw [h.1, h.2, hk]
  | opRead => exact hk
  | opHealth => exact hk

theorem process_speech_flag (st : State) (sid₀ : String) (cd : CallRec)
    (sid sp ai : String) (ex : Option BookingInfo) (n : Nat)
    (hd : dlookup st.call_data sid₀ = some cd) (hem : cd.is_emergency = true) :
    ∃ cd2, dlookup (process_speech st sid sp ai ex n).1.call_data sid₀ = some cd2 ∧
      cd2.is_emergency = true := by
  cases hcv : dlookup st.conversations sid with
  | none =>
    refine ⟨cd, ?_, hem⟩
    simp [process_speech, hcv, hd]
  | some conv =>
    by_cases hsid : sid = sid₀
    · subst hsid
      cases hcd : dlookup st.call_data sid with
      | none => rw [hd] at hcd; exact absurd hcd (by simp)
      | some cd1 =>
        rw [hd] at hcd
        injection hcd with hcd
        subst hcd
        by_cases hl : conv.length + 2 ≥ 6
        · simp only [process_speech, hcv, hd]
          simp only [List.length_append, List.length_cons, List.length_nil]
          rw [if_pos (by omega)]
          refine ⟨_, by rw [dlookup_dinsert], ?_⟩
          by_cases hdet : detect_emergency sp.data = true
          · simp [hdet]
          · simp [hdet, hem]
        · simp only [process_speech, hcv, hd]
          simp only [List.length_append, List.length_cons, List.length_nil]
          rw [if_neg (by omega)]
          refine ⟨_, by rw [dlookup_dinsert], ?_⟩
          by_cases hdet : detect_emergency sp.data = true
          · simp [hdet]
          · simp [hdet, hem]
    · have hne : sid ≠ sid₀ := hsid
      cases hcd : dlookup st.call_data sid with
      | none =>
        refine ⟨cd, ?_, hem⟩
        simp only [process_speech, hcv, hcd]
        exact hd
      | some cd1 =>
        by_cases hl : conv.length + 2 ≥ 6
        · simp only [process_speech, hcv, hcd]
          simp only [List.length_append, List.length_cons, List.length_nil]
          rw [if_pos (by omega)]
          refine ⟨cd, ?_, hem⟩
          show dlookup (dinsert (dinsert st.call_data sid _) sid _) sid₀ = some cd
          rw [dlookup_dinsert_ne _ _ _ _ hne, dlookup_dinsert_ne _ _ _ _ hne, hd]
        · simp only [process_speech, hcv, hcd]
          simp only [List.length_append, List.length_cons, List.length_nil]
          rw [if_neg (by omega)]
          refine ⟨cd, ?_, hem⟩
          show dlookup (dinsert st.call_data sid _) sid₀ = some cd
          rw [dlookup_dinsert_ne _ _ _ _ hne, hd]

theorem voice_record_preserved (st : State) (sid₀ : String) (cd : CallRec)
    (sid : String) (f : Option String) (n : Nat)
    (hk : KeysEq st) (hd : dlookup st.call_data sid₀ = some cd) :
    dlookup (voice st sid f n).call_data sid₀ = some cd := by
  unfold voice
  by_cases hp : (dlookup st.conversations sid).isSome
  · simp [hp, hd]
  · rw [if_neg (by simpa using hp)]
    have hne : sid ≠ sid₀ := by
      intro h
      subst h
      have hmem : sid ∈ st.call_data.map Prod.fst := by
        rw [← dlookup_isSome_iff, hd]; rfl
      rw [← hk] at hmem
      rw [← dlookup_isSome_iff] at hmem
      exact hp hmem
    show dlookup (dinsert st.call_data sid _) sid₀ = some cd
    rw [dlookup_dinsert_ne _ _ _ _ hne, hd]

theorem call_status_flag (st : State) (sid₀ : String) (cd : CallRec)
    (sid s : String) (n : Nat)
    (hd : dlookup st.call_data sid₀ = some cd) (hem : cd.is_emergency = true) :
    ∃ cd2, dlookup (call_status st sid s n).call_data sid₀ = some cd2 ∧
      cd2.is_emergency = true := by
  by_cases hsid : sid = sid₀
  · subst hsid
    simp only [call_status, hd]
    exact ⟨{ cd with status := some s, ended_at := some n }, by rw [dlookup_dinsert], hem⟩
  · cases hcd : dlookup st.call_data sid with
    | none =>
      simp only [call_status, hcd]
      exact ⟨cd, hd, hem⟩
    | some cd1 =>
      simp only [call_status, hcd]
      exact ⟨cd, by rw [dlookup_dinsert_ne _ _ _ _ hsid, hd], hem⟩

theorem step_flag (st : State) (op : Op) (sid₀ : String) (cd : CallRec)
    (hk : KeysEq st) (hd : dlookup st.call_data sid₀ = some cd)
    (hem : cd.is_emergency = true) :
    ∃ cd2, dlookup (step st op).call_data sid₀ = some cd2 ∧ cd2.is_emergency = true := by
  cases op with
  | opVoice sid f n =>
    exact ⟨cd, voice_record_preserved st sid₀ cd sid f n hk hd, hem⟩
  | opSpeech sid sp ai ex n =>
    exact process_speech_flag st sid₀ cd sid sp ai ex n hd hem
  | opStatus sid s n =>
    exact call_status_flag st sid₀ cd sid s n hd hem
  | opRead => exact ⟨cd, hd, hem⟩
  | opHealth => exact ⟨cd, hd, hem⟩

/-- C3: detect_emergency returns true exactly when the lowercased
utterance contains one of the fixed trigger phrases as a substring; it
is true for any utterance embedding a trigger phrase in any
letter-casing (any mid segment whose lowercasing is the phrase), false
when no phrase occurs, and a pure function of the utterance text. -/
theorem detect_emergency_spec :
    (∀ t : List Char, detect_emergency t = true ↔
      ∃ kw ∈ EMERGENCY_KEYWORDS, kw <:+: pyLower t) ∧
    (∀ pre mid post : List Char, (∃ kw ∈ EMERGENCY_KEYWORDS, pyLower mid = kw) →
      detect_emergency (pre ++ mid ++ post) = true) ∧
    (∀ t : List Char, (∀ kw ∈ EMERGENCY_KEYWORDS, ¬ kw <:+: pyLower t) →
      detect_emergency t = false) := by
  have h1 : ∀ t : List Char, detect_emergency t = true ↔
      ∃ kw ∈ EMERGENCY_KEYWORDS, kw <:+: pyLower t := by
    intro t
    simp [detect_emergency, List.any_eq_true, pyContains_iff]
  refine ⟨h1, ?_, ?_⟩
  · rintro pre mid post ⟨kw, hkw, hmid⟩
    rw [h1]
    refine ⟨kw, hkw, ?_⟩
    have hmid2 : mid.map Char.toLower = kw := hmid
    have hsplit : pyLower (pre ++ mid ++ post) = pyLower pre ++ kw ++ pyLower post := by
      simp [pyLower, hmid2]
    rw [hsplit]
    exact List.infix_append _ _ _
  · intro t h
    cases hb : detect_emergency t with
    | false => rfl
    | true =>
      obtain ⟨kw, hkw, hinf⟩ := (h1 t).mp hb
      exact absurd hinf (h kw hkw)

theorem detect_emergency_spec_witness :
    detect_emergency ("Help, ".toList ++ "BURST".toList ++ " pipe!".toList) = true ∧
    detect_emergency "hello there".toList = false := by
  constructor
  · exact detect_emergency_spec.2.1 "Help, ".toList "BURST".toList " pipe!".toList
      ⟨"burst".toList, by decide, by decide⟩
  · exact detect_emergency_spec.2.2 "hello there".toList (by decide)

/-- C5 counterexample: the oracle reply parsing to the JSON object with
the single key name is parseable JSON but not the expected structured
data, yet extract_booking_info returns it unchanged rather than the
fully-populated default record: the phone field is simply missing, not
the sentinel. -/
theorem extract_nonconforming_json_cex :
    is_expected_structure (some [("name", "Bob")]) = false ∧
    extract_booking_info (some [("name", "Bob")]) ≠ default_booking ∧
    dlookup (extract_booking_info (some [("name", "Bob")])) "phone" = none := by
  refine ⟨rfl, ?_, rfl⟩
  decide

/-- C5 amended: the extractor returns the fully-populated default
record (every field at the sentinel, emergency field no) exactly when
json.loads raises on the oracle reply; a reply that parses is returned
verbatim, even when fields are missing; the function is total, so it
never raises. -/
theorem extract_fallback_on_parse_failure :
    extract_booking_info none = default_booking ∧
    ∀ info : BookingInfo, extract_booking_info (some info) = info :=
  ⟨rfl, fun _ => rfl⟩

/-- C8: the voice handler is an idempotent lookup-or-create: a second
invocation with the same id leaves the whole state unchanged; an
invocation never touches the entries of any other id; and a first
invocation creates exactly the empty conversation and the fresh call
record for its id. -/
theorem voice_get_or_create_spec :
    (∀ st sid f n, (dlookup st.conversations sid).isSome = true → voice st sid f n = st) ∧
    (∀ st sid f n f2 n2, voice (voice st sid f n) sid f2 n2 = voice st sid f n) ∧
    (∀ st sid f n sid₀, sid₀ ≠ sid →
      dlookup (voice st sid f n).conversations sid₀ = dlookup st.conversations sid₀ ∧
      dlookup (voice st sid f n).call_data sid₀ = dlookup st.call_data sid₀) ∧
    (∀ st sid f n, dlookup st.conversations sid = none →
      dlookup (voice st sid f n).conversations sid = some [] ∧
      dlookup (voice st sid f n).call_data sid = some
        { fromNumber := f, started_at := n, conversation := [], is_emergency := false,
          status := none, ended_at := none, booking_info := none }) := by
  have hret : ∀ st sid f n, (dlookup st.conversations sid).isSome = true →
      voice st sid f n = st := by
    intro st sid f n h
    simp [voice, h]
  refine ⟨hret, ?_, ?_, ?_⟩
  · intro st sid f n f2 n2
    by_cases h : (dlookup st.conversations sid).isSome = true
    · rw [hret st sid f n h]
      exact hret st sid f2 n2 h
    · have h2 : (dlookup (voice st sid f n).conversations sid).isSome = true := by
        unfold voice
        rw [if_neg (by simpa using h)]
        show (dlookup (dinsert st.conversations sid []) sid).isSome = true
        rw [dlookup_dinsert]
        rfl
      exact hret _ sid f2 n2 h2
  · intro st sid f n sid₀ hne
    by_cases h : (dlookup st.conversations sid).isSome = true
    · rw [hret st sid f n h]
      exact ⟨rfl, rfl⟩
    · constructor
      · unfold voice
        rw [if_neg (by simpa using h)]
        exact dlookup_dinsert_ne _ _ _ _ (Ne.symm hne)
      · unfold voice
        rw [if_neg (by simpa using h)]
        exact dlookup_dinsert_ne _ _ _ _ (Ne.symm hne)
  · intro st sid f n h
    have h2 : ¬ (dlookup st.conversations sid).isSome = true := by simp [h]
    constructor
    · unfold voice
      rw [if_neg (by simpa using h2)]
      exact dlookup_dinsert _ _ _
    · unfold voice
      rw [if_neg (by simpa using h2)]
      exact dlookup_dinsert _ _ _

theorem voice_get_or_create_spec_witness :
    voice (voice initState "CA1" (some "+441234567890") 0) "CA1" none 5 =
      voice initState "CA1" (some "+441234567890") 0 ∧
    dlookup (voice initState "CA1" (some "+441234567890") 0).conversations "CA2" =
      dlookup initState.conversations "CA2" := by
  constructor
  · exact voice_get_or_create_spec.1 (voice initState "CA1" (some "+441234567890") 0)
      "CA1" none 5 (by decide)
  · exact (voice_get_or_create_spec.2.2.1 initState "CA1" (some "+441234567890") 0
      "CA2" (by decide)).1

/-- C9: process_speech on a call id absent from the conversations dict
raises a KeyError before any mutation, so it neither creates a session
nor returns a TwiML response; call_status on an unknown id silently
leaves the state unchanged (and still answers ok), and the read
endpoint never mutates state. -/
theorem unknown_call_sid_spec :
    (∀ st sid sp ai ex n, dlookup st.conversations sid = none →
      process_speech st sid sp ai ex n = (st, PSResult.keyError)) ∧
    (∀ st sid s n, dlookup st.call_data sid = none → call_status st sid s n = st) ∧
    (∀ st, step st Op.opRead = st) := by
  refine ⟨?_, ?_, fun _ => rfl⟩
  · intro st sid sp ai ex n h
    simp [process_speech, h]
  · intro st sid s n h
    simp [call_status, h]

theorem unknown_call_sid_spec_witness :
    process_speech initState "CAX" "hi" "ok" none 0 = (initState, PSResult.keyError) ∧
    call_status initState "CAX" "completed" 3 = initState :=
  ⟨unknown_call_sid_spec.1 initState "CAX" "hi" "ok" none 0 rfl,
   unknown_call_sid_spec.2.1 initState "CAX" "completed" 3 rfl⟩

/-- C1: with the session present in both stores, process_speech appends
the caller and system turns (the stored history grows by exactly two),
takes the termination branch exactly when the turn count measured after
the system turn is appended is at least 6, and below 6 instead returns
the continue-gathering response, fires no side effect and leaves the
stored booking record unchanged. -/
theorem process_speech_termination_threshold (st : State) (sid sp ai : String)
    (ex : Option BookingInfo) (n : Nat) (conv : List Turn) (cd : CallRec)
    (hc : dlookup st.conversations sid = some conv)
    (hd : dlookup st.call_data sid = some cd) :
    (∃ conv2, dlookup (process_speech st sid sp ai ex n).1.conversations sid = some conv2 ∧
      conv2.length = conv.length + 2) ∧
    ((∃ sms dash, (process_speech st sid sp ai ex n).2 = PSResult.hangupResp sms dash) ↔
      conv.length + 2 ≥ 6) ∧
    (conv.length + 2 < 6 →
      (process_speech st sid sp ai ex n).2 = PSResult.gatherResp ai ∧
      psEffects (process_speech st sid sp ai ex n).2 = [] ∧
      ∃ cd2, dlookup (process_speech st sid sp ai ex n).1.call_data sid = some cd2 ∧
        cd2.booking_info = cd.booking_info) := by
  by_cases hl : conv.length + 2 ≥ 6
  · refine ⟨?_, ?_, ?_⟩
    · simp only [process_speech, hc, hd]
      simp only [List.length_append, List.length_cons, List.length_nil]
      rw [if_pos (by omega)]
      exact ⟨_, by rw [dlookup_dinsert], by simp⟩
    · constructor
      · intro _
        exact hl
      · intro _
        simp only [process_speech, hc, hd]
        simp only [List.length_append, List.length_cons, List.length_nil]
        rw [if_pos (by omega)]
        exact ⟨_, _, rfl⟩
    · intro hlt
      omega
  · have hres : (process_speech st sid sp ai ex n).2 = PSResult.gatherResp ai := by
      simp only [process_speech, hc, hd]
      simp only [List.length_append, List.length_cons, List.length_nil]
      rw [if_neg (by omega)]
    refine ⟨?_, ?_, ?_⟩
    · simp only [process_speech, hc, hd]
      simp only [List.length_append, List.length_cons, List.length_nil]
      rw [if_neg (by omega)]
      exact ⟨_, by rw [dlookup_dinsert], by simp⟩
    · constructor
      · rintro ⟨sms, dash, hres2⟩
        rw [hres] at hres2
        exact absurd hres2 (by simp)
      · intro h6
        exact absurd h6 hl
    · intro _
      refine ⟨hres, by rw [hres]; rfl, ?_⟩
      simp only [process_speech, hc, hd]
      simp only [List.length_append, List.length_cons, List.length_nil]
      rw [if_neg (by omega)]
      refine ⟨_, by rw [dlookup_dinsert], ?_⟩
      by_cases hdet : detect_emergency sp.data = true
      · simp [hdet]
      · simp [hdet]

/-- Fixed caller turn used to build concrete witness sessions. -/
def wTurn : Turn := { role := Role.user, content := "x" }

/-- Fresh call record used to build concrete witness sessions. -/
def wRec : CallRec :=
  { fromNumber := some "+441234567890", started_at := 0, conversation := [],
    is_emergency := false, status := none, ended_at := none, booking_info := none }

/-- Concrete state whose session CA1 already holds 4 turns. -/
def wState4 : State :=
  { conversations := [("CA1", [wTurn, wTurn, wTurn, wTurn])],
    call_data := [("CA1", wRec)] }

/-- Concrete state whose session CA1 already holds 2 turns. -/
def wState2 : State :=
  { conversations := [("CA1", [wTurn, wTurn])],
    call_data := [("CA1", wRec)] }

theorem process_speech_termination_threshold_witness :
    (∃ sms dash, (process_speech wState4 "CA1" "hello" "ok" none 0).2 =
      PSResult.hangupResp sms dash) ∧
    (process_speech wState2 "CA1" "hello" "ok" none 0).2 = PSResult.gatherResp "ok" := by
  constructor
  · exact ((process_speech_termination_threshold wState4 "CA1" "hello" "ok" none 0
      [wTurn, wTurn, wTurn, wTurn] wRec (by decide) (by decide)).2.1).mpr (by decide)
  · exact ((process_speech_termination_threshold wState2 "CA1" "hello" "ok" none 0
      [wTurn, wTurn] wRec (by decide) (by decide)).2.2 (by decide)).1

/-- C4: the emergency flag is monotonic: in any state whose two stores
hold the same keys, once a session carries a true flag, running any
sequence of further inbound events (voice, speech, status updates,
reads) leaves that session present with its flag still true. -/
theorem emergency_flag_monotonic (ops : List Op) (st : State) (sid : String) (cd : CallRec)
    (hk : KeysEq st) (hd : dlookup st.call_data sid = some cd)
    (hem : cd.is_emergency = true) :
    ∃ cd2, dlookup (runOps st ops).call_data sid = some cd2 ∧
      cd2.is_emergency = true := by
  induction ops generalizing st cd with
  | nil => exact ⟨cd, hd, hem⟩
  | cons op rest ih =>
    obtain ⟨cd1, hd1, hem1⟩ := step_flag st op sid cd hk hd hem
    exact ih (step st op) cd1 (keysEq_step st op hk) hd1 hem1

/-- Concrete state whose session CA1 carries a true emergency flag. -/
def wStateEm : State :=
  { conversations := [("CA1", [wTurn, wTurn])],
    call_data := [("CA1", { wRec with is_emergency := true })] }

theorem emergency_flag_monotonic_witness :
    ∃ cd2, dlookup (runOps wStateEm
      [Op.opSpeech "CA1" "thanks" "ok" none 1, Op.opStatus "CA1" "completed" 2,
       Op.opVoice "CA2" none 3, Op.opRead]).call_data "CA1" = some cd2 ∧
      cd2.is_emergency = true :=
  emergency_flag_monotonic
    [Op.opSpeech "CA1" "thanks" "ok" none 1, Op.opStatus "CA1" "completed" 2,
     Op.opVoice "CA2" none 3, Op.opRead]
    wStateEm "CA1" { wRec with is_emergency := true } rfl (by decide) (by decide)

/-- C10: the two stores always hold the same key set: the invariant
holds initially, every handler preserves it, no handler deletes an
entry of either store, the voice handler creates the two entries of a
new id together, and under the invariant an id has a dialogue history
exactly when it has call metadata. -/
theorem stores_key_invariant :
    KeysEq initState ∧
    (∀ st op, KeysEq st → KeysEq (step st op)) ∧
    (∀ st op sid, (dlookup st.conversations sid).isSome = true →
      (dlookup (step st op).conversations sid).isSome = true) ∧
    (∀ st op sid, (dlookup st.call_data sid).isSome = true →
      (dlookup (step st op).call_data sid).isSome = true) ∧
    (∀ st sid f n, KeysEq st →
      (dlookup (voice st sid f n).conversations sid).isSome = true ∧
      (dlookup (voice st sid f n).call_data sid).isSome = true) ∧
    (∀ st, KeysEq st → ∀ sid,
      ((dlookup st.conversations sid).isSome = true ↔
        (dlookup st.call_data sid).isSome = true)) := by
  have hset : ∀ st : State, KeysEq st → ∀ sid,
      ((dlookup st.conversations sid).isSome = true ↔
        (dlookup st.call_data sid).isSome = true) := by
    intro st hk sid
    unfold KeysEq at hk
    rw [dlookup_isSome_iff, dlookup_isSome_iff, hk]
  refine ⟨rfl, keysEq_step, ?_, ?_, ?_, hset⟩
  · intro st op sid h
    rw [dlookup_isSome_iff] at h ⊢
    cases op with
    | opVoice sid1 f n =>
      show sid ∈ (voice st sid1 f n).conversations.map Prod.fst
      unfold voice
      by_cases hp : (dlookup st.conversations sid1).isSome = true
      · rw [if_pos (by simpa using hp)]
        exact h
      · rw [if_neg (by simpa using hp)]
        exact dinsert_mem_preserved _ _ _ _ h
    | opSpeech sid1 sp ai ex n =>
      show sid ∈ (process_speech st sid1 sp ai ex n).1.conversations.map Prod.fst
      rw [(process_speech_keys st sid1 sp ai ex n).1]
      exact h
    | opStatus sid1 s n =>
      show sid ∈ (call_status st sid1 s n).conversations.map Prod.fst
      rw [(call_status_keys st sid1 s n).1]
      exact h
    | opRead => exact h
    | opHealth => exact h
  · intro st op sid h
    rw [dlookup_isSome_iff] at h ⊢
    cases op with
    | opVoice sid1 f n =>
      show sid ∈ (voice st sid1 f n).call_data.map Prod.fst
      unfold voice
      by_cases hp : (dlookup st.conversations sid1).isSome = true
      · rw [if_pos (by simpa using hp)]
        exact h
      · rw [if_neg (by simpa using hp)]
        exact dinsert_mem_preserved _ _ _ _ h
    | opSpeech sid1 sp ai ex n =>
      show sid ∈ (process_speech st sid1 sp ai ex n).1.call_data.map Prod.fst
      rw [(process_speech_keys st sid1 sp ai ex n).2]
      exact h
    | opStatus sid1 s n =>
      show sid ∈ (call_status st sid1 s n).call_data.map Prod.fst
      rw [(call_status_keys st sid1 s n).2]
      exact h
    | opRead => exact h
    | opHealth => exact h
  · intro st sid f n hk
    by_cases hp : (dlookup st.conversations sid).isSome = true
    · have heq : voice st sid f n = st := by simp [voice, hp]
      rw [heq]
      exact ⟨hp, (hset st hk sid).mp hp⟩
    · constructor
      · unfold voice
        rw [if_neg (by simpa using hp)]
        show (dlookup (dinsert st.conversations sid []) sid).isSome = true
        rw [dlookup_dinsert]
        rfl
      · unfold voice
        rw [if_neg (by simpa using hp)]
        show (dlookup (dinsert st.call_data sid _) sid).isSome = true
        rw [dlookup_dinsert]
        rfl

theorem stores_key_invariant_witness :
    (dlookup (voice initState "CA1" none 0).conversations "CA1").isSome = true ∧
    (dlookup (voice initState "CA1" none 0).call_data "CA1").isSome = true :=
  stores_key_invariant.2.2.2.2.1 initState "CA1" none 0 rfl

/-- Extraction-oracle reply used in the demonstration runs: a
well-formed booking object whose own emergency field says no. -/
def demo_booking : BookingInfo :=
  [("name", "Alice Smith"), ("phone", "+447700900123"), ("address", "1 High Street"),
   ("issue", "burst pipe"), ("appointment_time", "Monday 9am"), ("is_emergency", "no")]

/-- Demonstration run: one call CA123 whose first utterance mentions a
burst pipe, driven to the 6-turn termination. -/
def demo_ops : List Op :=
  [Op.opVoice "CA123" (some "+441234567890") 0,
   Op.opSpeech "CA123" "I have a burst pipe" "Sorry to hear that, what is your name?"
     (some demo_booking) 1,
   Op.opSpeech "CA123" "My name is Alice Smith" "Thanks, what is your address?"
     (some demo_booking) 2,
   Op.opSpeech "CA123" "1 High Street, Monday at 9am" "All booked, goodbye"
     (some demo_booking) 3]

/-- Demonstration run extended by a duplicate termination trigger: a
fifth inbound utterance event for CA123 after the threshold was already
reached and the call was terminated. -/
def dup_ops : List Op :=
  demo_ops ++ [Op.opSpeech "CA123" "hello are you there" "goodbye again"
    (some demo_booking) 4]

/-- C2 counterexample: over the duplicate-trigger run the service
attempts two SMS dispatches and two dashboard publications for the one
session, so the at-most-once claim fails: the termination side effects
are unguarded and refire on the duplicate event. -/
theorem duplicate_trigger_double_dispatch_cex :
    ¬ (countSms (runEffs initState dup_ops).2 ≤ 1 ∧
       countDash (runEffs initState dup_ops).2 ≤ 1) := by
  decide

/-- C2 amended: every process_speech invocation whose post-append turn
count meets the threshold fires exactly one dashboard publication and
at most one SMS dispatch; in particular a duplicate termination
trigger (an invocation finding the session already at 6 or more turns)
fires one further publication, so dispatch counts grow per trigger
instead of being capped at one per session. -/
theorem duplicate_trigger_refires_side_effects (st : State) (sid sp ai : String)
    (ex : Option BookingInfo) (n : Nat) (conv : List Turn) (cd : CallRec)
    (hc : dlookup st.conversations sid = some conv)
    (hd : dlookup st.call_data sid = some cd)
    (hl : conv.length ≥ 6) :
    ∃ sms dash, (process_speech st sid sp ai ex n).2 = PSResult.hangupResp sms dash ∧
      countDash (psEffects (PSResult.hangupResp sms dash)) = 1 ∧
      countSms (psEffects (PSResult.hangupResp sms dash)) ≤ 1 := by
  have hres : ∃ sms dash, (process_speech st sid sp ai ex n).2 =
      PSResult.hangupResp sms dash := by
    simp only [process_speech, hc, hd]
    simp only [List.length_append, List.length_cons, List.length_nil]
    rw [if_pos (by omega)]
    exact ⟨_, _, rfl⟩
  obtain ⟨sms, dash, h⟩ := hres
  refine ⟨sms, dash, h, ?_, ?_⟩
  · cases sms <;> simp [psEffects, countDash, countSms]
  · cases sms <;> simp [psEffects, countDash, countSms]

/-- Concrete state whose session CA1 already holds 6 turns. -/
def wState6 : State :=
  { conversations := [("CA1", [wTurn, wTurn, wTurn, wTurn, wTurn, wTurn])],
    call_data := [("CA1", wRec)] }

theorem duplicate_trigger_refires_side_effects_witness :
    ∃ sms dash, (process_speech wState6 "CA1" "again" "bye" none 0).2 =
      PSResult.hangupResp sms dash ∧
      countDash (psEffects (PSResult.hangupResp sms dash)) = 1 ∧
      countSms (psEffects (PSResult.hangupResp sms dash)) ≤ 1 :=
  duplicate_trigger_refires_side_effects wState6 "CA1" "again" "bye" none 0
    [wTurn, wTurn, wTurn, wTurn, wTurn, wTurn] wRec (by decide) (by decide) (by decide)

/-- C6 counterexample: in the demonstration run the session terminates
with its boolean emergency flag true (the classifier saw burst), yet
the BookingRecord stored on the session keeps the extraction oracle
emergency value no: the stored record does not reflect the classifier
finding, contradicting the claim. -/
theorem booking_record_emergency_disagrees_cex :
    ((dlookup (runOps initState demo_ops).call_data "CA123").map fun cd =>
      (cd.is_emergency, cd.booking_info.map fun b => dlookup b "is_emergency"))
      = some (true, some (some "no")) := by
  decide

/-- C6 amended: at termination the BookingRecord is stored verbatim as
the extractor returned it (its emergency field may disagree with the
session flag), the session flag itself is preserved as the disjunction
of its prior value and the current classifier result, and the
classifier finding does surface in the dashboard publication: its
urgency is emergency whenever the session flag is true, whatever the
extractor said. -/
theorem booking_stored_verbatim (st : State) (sid sp ai : String) (ex : Option BookingInfo)
    (n : Nat) (conv : List Turn) (cd : CallRec)
    (hc : dlookup st.conversations sid = some conv)
    (hd : dlookup st.call_data sid = some cd)
    (hl : conv.length + 2 ≥ 6) :
    ∃ sms dash cd2, (process_speech st sid sp ai ex n).2 = PSResult.hangupResp sms dash ∧
      dlookup (process_speech st sid sp ai ex n).1.call_data sid = some cd2 ∧
      cd2.booking_info = some (extract_booking_info ex) ∧
      cd2.is_emergency = (cd.is_emergency || detect_emergency sp.data) ∧
      ((cd.is_emergency || detect_emergency sp.data) = true →
        dash.urgency = "emergency") := by
  by_cases hdet : detect_emergency sp.data = true
  · simp only [process_speech, hc, hd, hdet, if_pos]
    simp only [List.length_append, List.length_cons, List.length_nil]
    rw [if_pos (by omega)]
    refine ⟨_, _, _, rfl, by rw [dlookup_dinsert], rfl, by simp [hdet], ?_⟩
    intro _
    simp [save_to_dashboard, dlookup_dinsert, hdet]
  · have hdet2 : detect_emergency sp.data = false := by
      cases hdetv : detect_emergency sp.data
      · rfl
      · exact absurd hdetv hdet
    simp only [process_speech, hc, hd, hdet2, Bool.false_eq_true, if_false]
    simp only [List.length_append, List.length_cons, List.length_nil]
    rw [if_pos (by omega)]
    refine ⟨_, _, _, rfl, by rw [dlookup_dinsert], rfl, by simp [hdet2], ?_⟩
    intro hem
    have hem2 : cd.is_emergency = true := by simpa using hem
    simp [save_to_dashboard, dlookup_dinsert, hdet2, hem2]

theorem booking_stored_verbatim_witness :
    ∃ sms dash cd2,
      (process_speech wState4 "CA1" "burst pipe" "ok" (some demo_booking) 0).2 =
        PSResult.hangupResp sms dash ∧
      dlookup (process_speech wState4 "CA1" "burst pipe" "ok"
        (some demo_booking) 0).1.call_data "CA1" = some cd2 ∧
      cd2.booking_info = some (extract_booking_info (some demo_booking)) ∧
      cd2.is_emergency = (wRec.is_emergency || detect_emergency "burst pipe".data) ∧
      ((wRec.is_emergency || detect_emergency "burst pipe".data) = true →
        dash.urgency = "emergency") :=
  booking_stored_verbatim wState4 "CA1" "burst pipe" "ok" (some demo_booking) 0
    [wTurn, wTurn, wTurn, wTurn] wRec (by decide) (by decide) (by decide)

/-- Terminated call record whose extracted booking is the all-sentinel
default: its phone field holds the Not provided sentinel while the
caller address is known. -/
def c7_rec : CallRec :=
  { fromNumber := some "+441234567890", started_at := 0, conversation := [],
    is_emergency := false, status := none, ended_at := none,
    booking_info := some default_booking }

/-- Concrete state holding the session CA9 with record c7_rec. -/
def c7_state : State :=
  { conversations := [("CA9", [])], call_data := [("CA9", c7_rec)] }

/-- C7 counterexample: for session CA9 no extracted number is available
(the phone field of the booking record is the Not provided sentinel)
and the original caller address is known, yet send_confirmation_sms
sends nothing at all instead of falling back to the caller address:
the fallback only triggers when the phone key is absent, not when its
value is the sentinel. -/
theorem sms_sentinel_no_fallback_cex :
    ((dlookup c7_state.call_data "CA9").bind fun cd => cd.fromNumber) =
      some "+441234567890" ∧
    ((dlookup c7_state.call_data "CA9").bind fun cd =>
      cd.booking_info.bind fun b => dlookup b "phone") = some "Not provided" ∧
    send_confirmation_sms c7_state "CA9" = none := by
  decide

/-- C7 amended: the SMS destination prefers the extracted phone number
whenever the phone key is present with a non-empty, non-sentinel value
(so on a conflict the extracted number wins over the caller address);
the caller address is used only when the phone key is absent from the
booking record entirely (and then only if itself usable); and when the
phone field holds the Not provided sentinel no notification is sent at
all rather than falling back. -/
theorem sms_destination_policy (st : State) (sid : String) (cd : CallRec)
    (b : BookingInfo)
    (hd : dlookup st.call_data sid = some cd) (hb : cd.booking_info = some b) :
    (∀ v, dlookup b "phone" = some v → ¬ v = "" → ¬ v = "Not provided" →
      send_confirmation_sms st sid = some v) ∧
    (dlookup b "phone" = some "Not provided" → send_confirmation_sms st sid = none) ∧
    (dlookup b "phone" = none →
      send_confirmation_sms st sid =
        if phone_usable cd.fromNumber then cd.fromNumber else none) := by
  refine ⟨?_, ?_, ?_⟩
  · intro v hv h1 h2
    simp [send_confirmation_sms, hd, hb, pyGet, hv, phone_usable, h1, h2]
  · intro hv
    simp [send_confirmation_sms, hd, hb, pyGet, hv, phone_usable]
  · intro hv
    simp [send_confirmation_sms, hd, hb, pyGet, hv]

theorem sms_destination_policy_witness :
    send_confirmation_sms c7_state "CA9" = none :=
  (sms_destination_policy c7_state "CA9" c7_rec default_booking
    (by decide) rfl).2.1 (by decide)
